/-
Verification of the drive-tool plugin and the CustomAttributeClass metadata shim.

Shallow embedding of:
  src/test-apps/ui-test-app/src/frontend/tools/drivetool/DriveToolManager.ts
  src/test-apps/ui-test-app/src/frontend/tools/drivetool/DriveToolConfig.ts
  src/source/Metadata/CustomAttributeClass.ts

JavaScript numbers are modelled by the rationals; the host geometry library
(points, vectors, curve-with-distance-index) is modelled from the spec where
its code is outside the repository snapshot.
-/
import Mathlib

/-- A 3d point from the geometry library, with rational coordinates. -/
structure Point3d where
  x : ℚ
  y : ℚ
  z : ℚ
deriving DecidableEq, Repr

/-- A 3d vector from the geometry library, with rational coordinates. -/
structure Vector3d where
  x : ℚ
  y : ℚ
  z : ℚ
deriving DecidableEq, Repr

/-- `Vector3d.unitZ(scale)`: the vector (0, 0, scale). -/
def Vector3d.unitZ (s : ℚ) : Vector3d :=
  ⟨0, 0, s⟩

/-- Component-wise scaling of a vector. -/
def Vector3d.scale (v : Vector3d) (s : ℚ) : Vector3d :=
  ⟨v.x * s, v.y * s, v.z * s⟩

/-- The cross product of two vectors. -/
def Vector3d.crossProduct (a b : Vector3d) : Vector3d :=
  ⟨a.y * b.z - a.z * b.y, a.z * b.x - a.x * b.z, a.x * b.y - a.y * b.x⟩

/-- Negation of a vector. -/
def Vector3d.neg (v : Vector3d) : Vector3d :=
  ⟨-v.x, -v.y, -v.z⟩

/-- `point.plus(vector)`: translate a point by a vector. -/
def Point3d.plus (p : Point3d) (v : Vector3d) : Point3d :=
  ⟨p.x + v.x, p.y + v.y, p.z + v.z⟩

/-- `point.minus(point)`: the vector from the second point to the first. -/
def Point3d.minus (p q : Point3d) : Vector3d :=
  ⟨p.x - q.x, p.y - q.y, p.z - q.z⟩

/-- Modelled from the spec: `CurveChainWithDistanceIndex` from the external
geometry library is "a host-provided geometry object mapping a normalized
progress value (0-1) to a 3D position and tangent direction".  `length` models
`curveLength()`, `pointAt` models `fractionToPoint`, and `tangentAt` models
`fractionToPointAndUnitTangent(f).getDirectionRef()`. -/
structure Curve where
  length : ℚ
  pointAt : ℚ → Point3d
  tangentAt : ℚ → Vector3d

/-- Modelled from the spec: `reverseInPlace` reverses the parametrization of
the curve, so fraction f on the reversed curve is fraction 1 - f on the
original and the tangent direction is flipped. -/
def Curve.reverse (c : Curve) : Curve :=
  { length := c.length
    pointAt := fun f => c.pointAt (1 - f)
    tangentAt := fun f => (c.tangentAt (1 - f)).neg }

/-- The arguments of `lookAtUsingLensAngle(eyePoint, targetPoint, upVector,
lensAngle)` recorded on the view state. -/
structure CameraPose where
  eyePoint : Point3d
  targetPoint : Point3d
  upVector : Vector3d
  lensAngleDegrees : ℚ
deriving DecidableEq, Repr

/-- The one warning message the manager can emit
(`IModelApp.notifications.outputMessage`). -/
inductive Notification where
  | warnCantFindPath
deriving DecidableEq, Repr

namespace DriveToolConfig

def intervalTime : ℚ := 0.5

def heightMin : ℚ := 0.1

def heightMax : ℚ := 10

def heightStep : ℚ := 0.1

def heightDefault : ℚ := 1.5

def lateralOffsetMin : ℚ := -5

def lateralOffsetMax : ℚ := 5

def lateralOffsetStep : ℚ := 0.1

def lateralOffsetDefault : ℚ := 0

def speedMin : ℚ := -50

def speedMax : ℚ := 50

def speedStep : ℚ := 1

def speedDefault : ℚ := 100 / 3.6

def speedConverter : ℚ := 3.6

def fovMin : ℚ := 5

def fovMax : ℚ := 175

def fovStep : ℚ := 5

def fovDefault : ℚ := 75

def detectionRectangleWidth : ℚ := 100

def detectionRectangleHeight : ℚ := 100

def targetMinDistance : ℚ := 0

def targetMaxDistance : ℚ := 1500

def targetDistanceDefault : ℚ := 200

def targetHeight : ℚ := 2

def targetVerticalOffset : ℚ := 2

def progressMax : ℚ := 100

def progressMin : ℚ := 0

end DriveToolConfig

/-- The state of a `DriveToolManager`.  Host objects are modelled by the data
the manager reads or writes through them: the viewport and view by presence
flags, the view camera by the recorded `lookAtUsingLensAngle` arguments plus a
count of `synchWithView` calls, the iModel selection set by its size, and the
notification manager by the list of emitted messages.  `intervalId` holds the
timer id registered by `setInterval`.  `targetDistance` is an `Option` because
the initializer reads `DriveToolConfig.targetDistance`, a property that does
not exist on `DriveToolConfig` (the config only defines
`targetDistanceDefault`), so the field starts out `undefined`. -/
structure DriveToolManager where
  viewport : Bool
  view : Bool
  selectedCurve : Option Curve
  cameraLookAt : Option Vector3d
  fov : ℚ
  moving : Bool
  progress : ℚ
  positionOnCurve : Option Point3d
  height : ℚ
  lateralOffset : ℚ
  speed : ℚ
  intervalTime : ℚ
  intervalId : Option Nat
  target : Bool
  autoStop : Bool
  targetDistance : Option ℚ
  targetId : Option String
  selectionSetSize : Nat
  camera : Option CameraPose
  synchCalls : Nat
  notifications : List Notification

namespace DriveToolManager

/-- The state right after `new DriveToolManager(...)`: every field takes its
initializer value.  `selectionSetSize` is the size of the host iModel's
selection set, which the constructor does not touch, so it is a parameter.
`_targetDistance = DriveToolConfig.targetDistance` reads a property missing
from `DriveToolConfig`, hence `none` (undefined). -/
def initialState (selSize : Nat) : DriveToolManager :=
  { viewport := false
    view := false
    selectedCurve := none
    cameraLookAt := none
    fov := DriveToolConfig.fovDefault
    moving := false
    progress := 0
    positionOnCurve := none
    height := DriveToolConfig.heightDefault
    lateralOffset := DriveToolConfig.lateralOffsetDefault
    speed := DriveToolConfig.speedDefault
    intervalTime := DriveToolConfig.intervalTime
    intervalId := none
    target := false
    autoStop := false
    targetDistance := none
    targetId := none
    selectionSetSize := selSize
    camera := none
    synchCalls := 0
    notifications := [] }

/-- `updateCamera()`: returns early unless both viewport and view are set;
when a position on the curve and a look-at direction are known, derives the
eye point and calls `lookAtUsingLensAngle`; in either case then calls
`synchWithView` on the viewport. -/
def updateCamera (m : DriveToolManager) : DriveToolManager :=
  if !m.viewport || !m.view then m
  else
    let m1 :=
      match m.positionOnCurve, m.cameraLookAt with
      | some pos, some look =>
        let eyePoint := ((pos.plus (Vector3d.unitZ m.height)).plus
          (((Vector3d.unitZ 1).crossProduct look).scale (-m.lateralOffset)))
        let pose : CameraPose :=
          { eyePoint := eyePoint
            targetPoint := eyePoint.plus look
            upVector := ⟨0, 0, 1⟩
            lensAngleDegrees := m.fov }
        { m with camera := some pose }
      | _, _ => m
    { m1 with synchCalls := m1.synchCalls + 1 }

/-- `updateProgress()`: when a curve is selected, recomputes the camera
look-at direction and the position on the curve from the current progress and
updates the camera. -/
def updateProgress (m : DriveToolManager) : DriveToolManager :=
  match m.selectedCurve with
  | some c =>
    updateCamera
      { m with cameraLookAt := some (c.tangentAt m.progress)
               positionOnCurve := some (c.pointAt m.progress) }
  | none => m

/-- The `progress` setter: clamps the value to [0, 1] and then runs
`updateProgress`. -/
def setProgress (m : DriveToolManager) (value : ℚ) : DriveToolManager :=
  let v1 := if value > 0 then value else 0
  let v2 := if v1 < 1 then v1 else 1
  updateProgress { m with progress := v2 }

/-- The `speed` setter: clamps to [speedMin, speedMax]. -/
def setSpeed (m : DriveToolManager) (value : ℚ) : DriveToolManager :=
  let v1 := if value ≤ DriveToolConfig.speedMax then value else DriveToolConfig.speedMax
  let v2 := if v1 ≥ DriveToolConfig.speedMin then v1 else DriveToolConfig.speedMin
  { m with speed := v2 }

/-- The `fov` setter: clamps to [fovMin, fovMax], then updates the camera. -/
def setFov (m : DriveToolManager) (value : ℚ) : DriveToolManager :=
  let v1 := if value ≤ DriveToolConfig.fovMax then value else DriveToolConfig.fovMax
  let v2 := if v1 ≥ DriveToolConfig.fovMin then v1 else DriveToolConfig.fovMin
  updateCamera { m with fov := v2 }

/-- The `height` setter: clamps to [heightMin, heightMax], then updates the
camera. -/
def setHeight (m : DriveToolManager) (value : ℚ) : DriveToolManager :=
  let v1 := if value ≤ DriveToolConfig.heightMax then value else DriveToolConfig.heightMax
  let v2 := if v1 ≥ DriveToolConfig.heightMin then v1 else DriveToolConfig.heightMin
  updateCamera { m with height := v2 }

/-- The `lateralOffset` setter: clamps to [lateralOffsetMin,
lateralOffsetMax], then updates the camera. -/
def setLateralOffset (m : DriveToolManager) (value : ℚ) : DriveToolManager :=
  let v1 := if value ≤ DriveToolConfig.lateralOffsetMax then value else DriveToolConfig.lateralOffsetMax
  let v2 := if v1 ≥ DriveToolConfig.lateralOffsetMin then v1 else DriveToolConfig.lateralOffsetMin
  updateCamera { m with lateralOffset := v2 }

/-- The `targetDistance` setter: stores the value with no clamping. -/
def setTargetDistance (m : DriveToolManager) (value : ℚ) : DriveToolManager :=
  { m with targetDistance := some value }

/-- The `targetId` setter. -/
def setTargetId (m : DriveToolManager) (id : Option String) : DriveToolManager :=
  { m with targetId := id }

/-- `step()`: when a curve is selected, advances the progress (through the
clamping setter) by speed * intervalTime / curveLength. -/
def step (m : DriveToolManager) : DriveToolManager :=
  match m.selectedCurve with
  | some c => m.setProgress (m.progress + m.speed * m.intervalTime / c.length)
  | none => m

/-- `launch(...)`: when a curve is selected and the tool is not moving, sets
the moving flag, takes one step, and registers the interval timer (`newId` is
the id `setInterval` returns). -/
def launch (m : DriveToolManager) (newId : Nat) : DriveToolManager :=
  if m.selectedCurve.isSome && !m.moving then
    let m1 := step { m with moving := true }
    { m1 with intervalId := some newId }
  else m

/-- `stop()`: when an interval timer is registered, resets the moving flag and
clears the timer. -/
def stop (m : DriveToolManager) : DriveToolManager :=
  if m.intervalId.isSome then
    { m with moving := false, intervalId := none }
  else m

/-- `toggleMovement()`. -/
def toggleMovement (m : DriveToolManager) (newId : Nat) : DriveToolManager :=
  if m.moving then m.stop else m.launch newId

/-- `toggleTarget()`. -/
def toggleTarget (m : DriveToolManager) : DriveToolManager :=
  { m with target := !m.target, autoStop := !m.autoStop }

/-- `reverseCurve()`: mirrors the progress, reverses the selected curve in
place, and recomputes the progress-derived state. -/
def reverseCurve (m : DriveToolManager) : DriveToolManager :=
  updateProgress
    { m with progress := 1 - m.progress
             selectedCurve := m.selectedCurve.map Curve.reverse }

/-- `setSelectedCurve(elementId)`: returns early when a curve is already
selected or no view is set; otherwise queries the backend for the element's
path (`path` is the parsed RPC response, `none` when no path could be
parsed).  On success stores the captured curve and updates the
progress-derived state, otherwise emits a warning; in both cases empties the
iModel selection set. -/
def setSelectedCurve (m : DriveToolManager) (path : Option Curve) : DriveToolManager :=
  if m.selectedCurve.isSome || !m.view then m
  else
    let m1 :=
      match path with
      | some p => updateProgress { m with selectedCurve := some p }
      | none => { m with notifications := Notification.warnCantFindPath :: m.notifications }
    { m1 with selectionSetSize := 0 }

/-- `init()`: stores the view manager's selected view as the viewport (absent
when `hasSelectedView` is false) and returns if there is none; returns if the
view is not 3d or disallows 3d manipulations; otherwise stores the view state
and, when exactly one element is selected, sets it as the selected curve
(`elementPath` is the parsed RPC response for that element). -/
def init (m : DriveToolManager) (hasSelectedView viewIs3d : Bool)
    (elementPath : Option Curve) : DriveToolManager :=
  let m0 := { m with viewport := hasSelectedView }
  if !hasSelectedView then m0
  else if !viewIs3d then m0
  else
    let m1 := { m0 with view := true }
    if m1.selectionSetSize = 1 then m1.setSelectedCurve elementPath else m1

/-- The fraction argument `getPointsShape()` passes to the selected curve's
`fractionToPoint`: `this._progress + this._targetDistance / curveLength()`.
It is `none` when `getPointsShape` returns early (no selected curve or no
position on curve).  The octagon construction performed on the returned point
is rendering-only and not modelled; the initial `undefined` target distance
(see `initialState`) lies outside the rational model, so the fraction is also
`none` then. -/
def getPointsShapeFraction (m : DriveToolManager) : Option ℚ :=
  match m.selectedCurve, m.positionOnCurve, m.targetDistance with
  | some c, some _, some td => some (m.progress + td / c.length)
  | _, _, _ => none

end DriveToolManager

/-- The operations through which the host application and the timer mutate a
`DriveToolManager` (the public setters, the keyboard / UI entry points, the
timer tick, and tool initialization). -/
inductive DriveEvent where
  | setProgress (v : ℚ)
  | setSpeed (v : ℚ)
  | setFov (v : ℚ)
  | setHeight (v : ℚ)
  | setLateralOffset (v : ℚ)
  | setTargetDistance (v : ℚ)
  | setTargetId (id : Option String)
  | tick
  | launch (newId : Nat)
  | stop
  | toggleMovement (newId : Nat)
  | toggleTarget
  | reverseCurve
  | selectCurve (path : Option Curve)
  | initTool (hasSelectedView viewIs3d : Bool) (elementPath : Option Curve)

/-- The effect of each operation on the manager state. -/
def DriveEvent.apply : DriveEvent → DriveToolManager → DriveToolManager
  | .setProgress v, m => m.setProgress v
  | .setSpeed v, m => m.setSpeed v
  | .setFov v, m => m.setFov v
  | .setHeight v, m => m.setHeight v
  | .setLateralOffset v, m => m.setLateralOffset v
  | .setTargetDistance v, m => m.setTargetDistance v
  | .setTargetId id, m => m.setTargetId id
  | .tick, m => m.step
  | .launch i, m => m.launch i
  | .stop, m => m.stop
  | .toggleMovement i, m => m.toggleMovement i
  | .toggleTarget, m => m.toggleTarget
  | .reverseCurve, m => m.reverseCurve
  | .selectCurve path, m => m.setSelectedCurve path
  | .initTool hv v3 p, m => m.init hv v3 p

/-- The states a `DriveToolManager` can reach from construction through the
modelled operations. -/
inductive reachable : DriveToolManager → Prop where
  | init (n : Nat) : reachable (DriveToolManager.initialState n)
  | event (e : DriveEvent) (m : DriveToolManager) :
      reachable m → reachable (e.apply m)

namespace DriveToolManager

lemma updateCamera_preserves (m : DriveToolManager) :
    (updateCamera m).progress = m.progress ∧
    (updateCamera m).moving = m.moving ∧
    (updateCamera m).intervalId = m.intervalId ∧
    (updateCamera m).selectedCurve = m.selectedCurve ∧
    (updateCamera m).positionOnCurve = m.positionOnCurve ∧
    (updateCamera m).cameraLookAt = m.cameraLookAt ∧
    (updateCamera m).speed = m.speed ∧
    (updateCamera m).fov = m.fov ∧
    (updateCamera m).height = m.height ∧
    (updateCamera m).lateralOffset = m.lateralOffset ∧
    (updateCamera m).intervalTime = m.intervalTime ∧
    (updateCamera m).targetDistance = m.targetDistance ∧
    (updateCamera m).selectionSetSize = m.selectionSetSize ∧
    (updateCamera m).notifications = m.notifications ∧
    (updateCamera m).view = m.view ∧
    (updateCamera m).viewport = m.viewport := by
  unfold updateCamera
  split
  · simp
  · rcases hp : m.positionOnCurve with _ | pos <;>
      rcases hl : m.cameraLookAt with _ | look <;> simp [hp, hl]

@[simp] lemma updateCamera_progress (m : DriveToolManager) :
    (updateCamera m).progress = m.progress := (updateCamera_preserves m).1

@[simp] lemma updateCamera_moving (m : DriveToolManager) :
    (updateCamera m).moving = m.moving := (updateCamera_preserves m).2.1

@[simp] lemma updateCamera_intervalId (m : DriveToolManager) :
    (updateCamera m).intervalId = m.intervalId := (updateCamera_preserves m).2.2.1

@[simp] lemma updateCamera_selectedCurve (m : DriveToolManager) :
    (updateCamera m).selectedCurve = m.selectedCurve := (updateCamera_preserves m).2.2.2.1

@[simp] lemma updateCamera_positionOnCurve (m : DriveToolManager) :
    (updateCamera m).positionOnCurve = m.positionOnCurve := (updateCamera_preserves m).2.2.2.2.1

@[simp] lemma updateCamera_cameraLookAt (m : DriveToolManager) :
    (updateCamera m).cameraLookAt = m.cameraLookAt := (updateCamera_preserves m).2.2.2.2.2.1

@[simp] lemma updateCamera_speed (m : DriveToolManager) :
    (updateCamera m).speed = m.speed := (updateCamera_preserves m).2.2.2.2.2.2.1

@[simp] lemma updateCamera_fov (m : DriveToolManager) :
    (updateCamera m).fov = m.fov := (updateCamera_preserves m).2.2.2.2.2.2.2.1

@[simp] lemma updateCamera_height (m : DriveToolManager) :
    (updateCamera m).height = m.height := (updateCamera_preserves m).2.2.2.2.2.2.2.2.1

@[simp] lemma updateCamera_lateralOffset (m : DriveToolManager) :
    (updateCamera m).lateralOffset = m.lateralOffset :=
  (updateCamera_preserves m).2.2.2.2.2.2.2.2.2.1

@[simp] lemma updateCamera_intervalTime (m : DriveToolManager) :
    (updateCamera m).intervalTime = m.intervalTime :=
  (updateCamera_preserves m).2.2.2.2.2.2.2.2.2.2.1

@[simp] lemma updateCamera_targetDistance (m : DriveToolManager) :
    (updateCamera m).targetDistance = m.targetDistance :=
  (updateCamera_preserves m).2.2.2.2.2.2.2.2.2.2.2.1

@[simp] lemma updateCamera_selectionSetSize (m : DriveToolManager) :
    (updateCamera m).selectionSetSize = m.selectionSetSize :=
  (updateCamera_preserves m).2.2.2.2.2.2.2.2.2.2.2.2.1

@[simp] lemma updateCamera_notifications (m : DriveToolManager) :
    (updateCamera m).notifications = m.notifications :=
  (updateCamera_preserves m).2.2.2.2.2.2.2.2.2.2.2.2.2.1

@[simp] lemma updateCamera_view (m : DriveToolManager) :
    (updateCamera m).view = m.view :=
  (updateCamera_preserves m).2.2.2.2.2.2.2.2.2.2.2.2.2.2.1

@[simp] lemma updateCamera_viewport (m : DriveToolManager) :
    (updateCamera m).viewport = m.viewport :=
  (updateCamera_preserves m).2.2.2.2.2.2.2.2.2.2.2.2.2.2.2

lemma updateProgress_preserves (m : DriveToolManager) :
    (updateProgress m).progress = m.progress ∧
    (updateProgress m).moving = m.moving ∧
    (updateProgress m).intervalId = m.intervalId ∧
    (updateProgress m).selectedCurve = m.selectedCurve ∧
    (updateProgress m).speed = m.speed ∧
    (updateProgress m).fov = m.fov ∧
    (updateProgress m).height = m.height ∧
    (updateProgress m).lateralOffset = m.lateralOffset ∧
    (updateProgress m).intervalTime = m.intervalTime ∧
    (updateProgress m).targetDistance = m.targetDistance ∧
    (updateProgress m).selectionSetSize = m.selectionSetSize ∧
    (updateProgress m).notifications = m.notifications ∧
    (updateProgress m).view = m.view ∧
    (updateProgress m).viewport = m.viewport := by
  unfold updateProgress
  rcases hc : m.selectedCurve with _ | c <;> simp [hc]

@[simp] lemma updateProgress_progress (m : DriveToolManager) :
    (updateProgress m).progress = m.progress := (updateProgress_preserves m).1

@[simp] lemma updateProgress_moving (m : DriveToolManager) :
    (updateProgress m).moving = m.moving := (updateProgress_preserves m).2.1

@[simp] lemma updateProgress_intervalId (m : DriveToolManager) :
    (updateProgress m).intervalId = m.intervalId := (updateProgress_preserves m).2.2.1

@[simp] lemma updateProgress_selectedCurve (m : DriveToolManager) :
    (updateProgress m).selectedCurve = m.selectedCurve := (updateProgress_preserves m).2.2.2.1

@[simp] lemma updateProgress_speed (m : DriveToolManager) :
    (updateProgress m).speed = m.speed := (updateProgress_preserves m).2.2.2.2.1

@[simp] lemma updateProgress_fov (m : DriveToolManager) :
    (updateProgress m).fov = m.fov := (updateProgress_preserves m).2.2.2.2.2.1

@[simp] lemma updateProgress_height (m : DriveToolManager) :
    (updateProgress m).height = m.height := (updateProgress_preserves m).2.2.2.2.2.2.1

@[simp] lemma updateProgress_lateralOffset (m : DriveToolManager) :
    (updateProgress m).lateralOffset = m.lateralOffset :=
  (updateProgress_preserves m).2.2.2.2.2.2.2.1

@[simp] lemma updateProgress_intervalTime (m : DriveToolManager) :
    (updateProgress m).intervalTime = m.intervalTime :=
  (updateProgress_preserves m).2.2.2.2.2.2.2.2.1

@[simp] lemma updateProgress_targetDistance (m : DriveToolManager) :
    (updateProgress m).targetDistance = m.targetDistance :=
  (updateProgress_preserves m).2.2.2.2.2.2.2.2.2.1

@[simp] lemma updateProgress_selectionSetSize (m : DriveToolManager) :
    (updateProgress m).selectionSetSize = m.selectionSetSize :=
  (updateProgress_preserves m).2.2.2.2.2.2.2.2.2.2.1

@[simp] lemma updateProgress_notifications (m : DriveToolManager) :
    (updateProgress m).notifications = m.notifications :=
  (updateProgress_preserves m).2.2.2.2.2.2.2.2.2.2.2.1

@[simp] lemma updateProgress_view (m : DriveToolManager) :
    (updateProgress m).view = m.view :=
  (updateProgress_preserves m).2.2.2.2.2.2.2.2.2.2.2.2.1

@[simp] lemma updateProgress_viewport (m : DriveToolManager) :
    (updateProgress m).viewport = m.viewport :=
  (updateProgress_preserves m).2.2.2.2.2.2.2.2.2.2.2.2.2

lemma clampedProgress_eq (v : ℚ) :
    (if (if v > 0 then v else 0) < 1 then (if v > 0 then v else 0) else 1) =
      min 1 (max 0 v) := by
  simp only [min_def, max_def]
  split_ifs <;> linarith

@[simp] lemma setProgress_progress (m : DriveToolManager) (v : ℚ) :
    (m.setProgress v).progress = min 1 (max 0 v) := by
  unfold setProgress
  rw [updateProgress_progress]
  exact clampedProgress_eq v

lemma clampedProgress_bounds (v : ℚ) :
    0 ≤ min 1 (max 0 v) ∧ min 1 (max 0 v) ≤ 1 :=
  ⟨le_min (by norm_num) (le_max_left 0 v), min_le_left 1 _⟩

lemma setProgress_preserves (m : DriveToolManager) (v : ℚ) :
    (m.setProgress v).moving = m.moving ∧
    (m.setProgress v).intervalId = m.intervalId ∧
    (m.setProgress v).selectedCurve = m.selectedCurve ∧
    (m.setProgress v).speed = m.speed ∧
    (m.setProgress v).intervalTime = m.intervalTime ∧
    (m.setProgress v).targetDistance = m.targetDistance ∧
    (m.setProgress v).notifications = m.notifications := by
  unfold setProgress
  simp

@[simp] lemma setProgress_moving (m : DriveToolManager) (v : ℚ) :
    (m.setProgress v).moving = m.moving := (setProgress_preserves m v).1

@[simp] lemma setProgress_intervalId (m : DriveToolManager) (v : ℚ) :
    (m.setProgress v).intervalId = m.intervalId := (setProgress_preserves m v).2.1

@[simp] lemma setProgress_selectedCurve (m : DriveToolManager) (v : ℚ) :
    (m.setProgress v).selectedCurve = m.selectedCurve := (setProgress_preserves m v).2.2.1

lemma step_eq_of_curve (m : DriveToolManager) (c : Curve) (hc : m.selectedCurve = some c) :
    m.step = m.setProgress (m.progress + m.speed * m.intervalTime / c.length) := by
  unfold step
  rw [hc]

lemma step_eq_of_none (m : DriveToolManager) (hc : m.selectedCurve = none) :
    m.step = m := by
  unfold step
  rw [hc]

lemma step_preserves (m : DriveToolManager) :
    (m.step).moving = m.moving ∧
    (m.step).intervalId = m.intervalId ∧
    (m.step).selectedCurve = m.selectedCurve := by
  rcases hc : m.selectedCurve with _ | c
  · rw [step_eq_of_none m hc]
    exact ⟨rfl, rfl, hc⟩
  · rw [step_eq_of_curve m c hc]
    simp [hc]

lemma step_progress_bounds (m : DriveToolManager)
    (h0 : 0 ≤ m.progress) (h1 : m.progress ≤ 1) :
    0 ≤ (m.step).progress ∧ (m.step).progress ≤ 1 := by
  rcases hc : m.selectedCurve with _ | c
  · rw [step_eq_of_none m hc]; exact ⟨h0, h1⟩
  · rw [step_eq_of_curve m c hc, setProgress_progress]
    exact clampedProgress_bounds _

lemma launch_eq_of_run (m : DriveToolManager) (i : Nat)
    (hc : m.selectedCurve.isSome = true) (hm : m.moving = false) :
    m.launch i = { step { m with moving := true } with intervalId := some i } := by
  unfold launch
  rw [hc, hm]
  simp

lemma launch_eq_of_skip (m : DriveToolManager) (i : Nat)
    (h : m.selectedCurve.isSome = false ∨ m.moving = true) :
    m.launch i = m := by
  unfold launch
  rcases h with h | h <;> simp [h]

lemma launch_run_moving (m : DriveToolManager) (i : Nat)
    (hc : m.selectedCurve.isSome = true) (hm : m.moving = false) :
    (m.launch i).moving = true ∧ (m.launch i).intervalId = some i := by
  rw [launch_eq_of_run m i hc hm]
  refine ⟨?_, rfl⟩
  have h := (step_preserves { m with moving := true }).1
  simpa using h

lemma launch_progress_bounds (m : DriveToolManager) (i : Nat)
    (h0 : 0 ≤ m.progress) (h1 : m.progress ≤ 1) :
    0 ≤ (m.launch i).progress ∧ (m.launch i).progress ≤ 1 := by
  unfold launch
  split
  · have h := step_progress_bounds { m with moving := true } (by simpa using h0) (by simpa using h1)
    simpa using h
  · exact ⟨h0, h1⟩

lemma stop_eq_of_some (m : DriveToolManager) (h : m.intervalId.isSome = true) :
    m.stop = { m with moving := false, intervalId := none } := by
  unfold stop
  rw [h]
  simp

lemma stop_eq_of_none (m : DriveToolManager) (h : m.intervalId = none) :
    m.stop = m := by
  unfold stop
  rw [h]
  simp

@[simp] lemma stop_progress (m : DriveToolManager) : (m.stop).progress = m.progress := by
  unfold stop
  split <;> simp

@[simp] lemma stop_selectedCurve (m : DriveToolManager) :
    (m.stop).selectedCurve = m.selectedCurve := by
  unfold stop
  split <;> simp

lemma toggleMovement_progress_bounds (m : DriveToolManager) (i : Nat)
    (h0 : 0 ≤ m.progress) (h1 : m.progress ≤ 1) :
    0 ≤ (m.toggleMovement i).progress ∧ (m.toggleMovement i).progress ≤ 1 := by
  unfold toggleMovement
  split
  · simpa using ⟨h0, h1⟩
  · exact launch_progress_bounds m i h0 h1

@[simp] lemma reverseCurve_progress (m : DriveToolManager) :
    (m.reverseCurve).progress = 1 - m.progress := by
  unfold reverseCurve
  simp

lemma reverseCurve_preserves (m : DriveToolManager) :
    (m.reverseCurve).moving = m.moving ∧
    (m.reverseCurve).intervalId = m.intervalId ∧
    (m.reverseCurve).selectedCurve = m.selectedCurve.map Curve.reverse := by
  unfold reverseCurve
  simp

lemma setSelectedCurve_preserves (m : DriveToolManager) (path : Option Curve) :
    (m.setSelectedCurve path).progress = m.progress ∧
    (m.setSelectedCurve path).moving = m.moving ∧
    (m.setSelectedCurve path).intervalId = m.intervalId := by
  unfold setSelectedCurve
  split
  · simp
  · rcases path with _ | p <;> simp

@[simp] lemma setSelectedCurve_progress (m : DriveToolManager) (path : Option Curve) :
    (m.setSelectedCurve path).progress = m.progress := (setSelectedCurve_preserves m path).1

@[simp] lemma setSelectedCurve_moving (m : DriveToolManager) (path : Option Curve) :
    (m.setSelectedCurve path).moving = m.moving := (setSelectedCurve_preserves m path).2.1

@[simp] lemma setSelectedCurve_intervalId (m : DriveToolManager) (path : Option Curve) :
    (m.setSelectedCurve path).intervalId = m.intervalId := (setSelectedCurve_preserves m path).2.2

lemma init_preserves (m : DriveToolManager) (hv v3 : Bool) (p : Option Curve) :
    (m.init hv v3 p).progress = m.progress ∧
    (m.init hv v3 p).moving = m.moving ∧
    (m.init hv v3 p).intervalId = m.intervalId := by
  unfold init
  cases hv <;> cases v3 <;> simp
  split <;> simp

lemma setSpeed_preserves (m : DriveToolManager) (v : ℚ) :
    (m.setSpeed v).progress = m.progress ∧
    (m.setSpeed v).moving = m.moving ∧
    (m.setSpeed v).intervalId = m.intervalId := by
  unfold setSpeed
  simp

lemma setFov_preserves (m : DriveToolManager) (v : ℚ) :
    (m.setFov v).progress = m.progress ∧
    (m.setFov v).moving = m.moving ∧
    (m.setFov v).intervalId = m.intervalId := by
  unfold setFov
  simp

lemma setHeight_preserves (m : DriveToolManager) (v : ℚ) :
    (m.setHeight v).progress = m.progress ∧
    (m.setHeight v).moving = m.moving ∧
    (m.setHeight v).intervalId = m.intervalId := by
  unfold setHeight
  simp

lemma setLateralOffset_preserves (m : DriveToolManager) (v : ℚ) :
    (m.setLateralOffset v).progress = m.progress ∧
    (m.setLateralOffset v).moving = m.moving ∧
    (m.setLateralOffset v).intervalId = m.intervalId := by
  unfold setLateralOffset
  simp

lemma launch_inv (m : DriveToolManager) (i : Nat)
    (ih : m.moving = m.intervalId.isSome) :
    (m.launch i).moving = (m.launch i).intervalId.isSome := by
  by_cases hc : m.selectedCurve.isSome = true
  · by_cases hm : m.moving = true
    · rw [launch_eq_of_skip m i (Or.inr hm)]; exact ih
    · have hm0 : m.moving = false := by simpa using hm
      rcases launch_run_moving m i hc hm0 with ⟨h1, h2⟩
      rw [h1, h2]
      rfl
  · have hc0 : m.selectedCurve.isSome = false := by simpa using hc
    rw [launch_eq_of_skip m i (Or.inl hc0)]
    exact ih

lemma stop_inv (m : DriveToolManager)
    (ih : m.moving = m.intervalId.isSome) :
    (m.stop).moving = (m.stop).intervalId.isSome := by
  by_cases hi : m.intervalId.isSome = true
  · rw [stop_eq_of_some m hi]
    rfl
  · have hnone : m.intervalId = none := by
      rcases h : m.intervalId with _ | v
      · rfl
      · rw [h] at hi; simp at hi
    rw [stop_eq_of_none m hnone]
    exact ih

lemma toggleMovement_inv (m : DriveToolManager) (i : Nat)
    (ih : m.moving = m.intervalId.isSome) :
    (m.toggleMovement i).moving = (m.toggleMovement i).intervalId.isSome := by
  unfold toggleMovement
  by_cases hm : m.moving = true
  · rw [if_pos hm]
    exact stop_inv m ih
  · have hm0 : m.moving = false := by simpa using hm
    rw [hm0]
    simp only [Bool.false_eq_true, if_false]
    exact launch_inv m i ih

/-- In every reachable state the stored progress lies in [0, 1]. -/
lemma reachable_progress_bounds {m : DriveToolManager} (h : reachable m) :
    0 ≤ m.progress ∧ m.progress ≤ 1 := by
  induction h with
  | init n => norm_num [initialState]
  | event e m' hm ih =>
    rcases ih with ⟨ih0, ih1⟩
    cases e with
    | setProgress v =>
      simp only [DriveEvent.apply, setProgress_progress]
      exact clampedProgress_bounds v
    | setSpeed v =>
      simp only [DriveEvent.apply]
      rw [(setSpeed_preserves m' v).1]
      exact ⟨ih0, ih1⟩
    | setFov v =>
      simp only [DriveEvent.apply]
      rw [(setFov_preserves m' v).1]
      exact ⟨ih0, ih1⟩
    | setHeight v =>
      simp only [DriveEvent.apply]
      rw [(setHeight_preserves m' v).1]
      exact ⟨ih0, ih1⟩
    | setLateralOffset v =>
      simp only [DriveEvent.apply]
      rw [(setLateralOffset_preserves m' v).1]
      exact ⟨ih0, ih1⟩
    | setTargetDistance v =>
      simp only [DriveEvent.apply, setTargetDistance]
      exact ⟨ih0, ih1⟩
    | setTargetId id =>
      simp only [DriveEvent.apply, setTargetId]
      exact ⟨ih0, ih1⟩
    | tick =>
      exact step_progress_bounds m' ih0 ih1
    | launch i =>
      exact launch_progress_bounds m' i ih0 ih1
    | stop =>
      simp only [DriveEvent.apply, stop_progress]
      exact ⟨ih0, ih1⟩
    | toggleMovement i =>
      exact toggleMovement_progress_bounds m' i ih0 ih1
    | toggleTarget =>
      simp only [DriveEvent.apply, toggleTarget]
      exact ⟨ih0, ih1⟩
    | reverseCurve =>
      simp only [DriveEvent.apply, reverseCurve_progress]
      constructor <;> linarith
    | selectCurve path =>
      simp only [DriveEvent.apply, setSelectedCurve_progress]
      exact ⟨ih0, ih1⟩
    | initTool hv v3 p =>
      simp only [DriveEvent.apply]
      rw [(init_preserves m' hv v3 p).1]
      exact ⟨ih0, ih1⟩

/-- In every reachable state the moving flag agrees with the presence of a
stored interval timer id. -/
lemma reachable_moving_eq {m : DriveToolManager} (h : reachable m) :
    m.moving = m.intervalId.isSome := by
  induction h with
  | init n => rfl
  | event e m' hm ih =>
    cases e with
    | setProgress v =>
      simp only [DriveEvent.apply, setProgress_moving, setProgress_intervalId]
      exact ih
    | setSpeed v =>
      simp only [DriveEvent.apply]
      rw [(setSpeed_preserves m' v).2.1, (setSpeed_preserves m' v).2.2]
      exact ih
    | setFov v =>
      simp only [DriveEvent.apply]
      rw [(setFov_preserves m' v).2.1, (setFov_preserves m' v).2.2]
      exact ih
    | setHeight v =>
      simp only [DriveEvent.apply]
      rw [(setHeight_preserves m' v).2.1, (setHeight_preserves m' v).2.2]
      exact ih
    | setLateralOffset v =>
      simp only [DriveEvent.apply]
      rw [(setLateralOffset_preserves m' v).2.1, (setLateralOffset_preserves m' v).2.2]
      exact ih
    | setTargetDistance v =>
      simp only [DriveEvent.apply, setTargetDistance]
      exact ih
    | setTargetId id =>
      simp only [DriveEvent.apply, setTargetId]
      exact ih
    | tick =>
      simp only [DriveEvent.apply]
      rw [(step_preserves m').1, (step_preserves m').2.1]
      exact ih
    | launch i =>
      exact launch_inv m' i ih
    | stop =>
      exact stop_inv m' ih
    | toggleMovement i =>
      exact toggleMovement_inv m' i ih
    | toggleTarget =>
      simp only [DriveEvent.apply, toggleTarget]
      exact ih
    | reverseCurve =>
      simp only [DriveEvent.apply]
      rw [(reverseCurve_preserves m').1, (reverseCurve_preserves m').2.1]
      exact ih
    | selectCurve path =>
      simp only [DriveEvent.apply, setSelectedCurve_moving, setSelectedCurve_intervalId]
      exact ih
    | initTool hv v3 p =>
      simp only [DriveEvent.apply]
      rw [(init_preserves m' hv v3 p).2.1, (init_preserves m' hv v3 p).2.2]
      exact ih

lemma clampStore_eq (lo hi v : ℚ) (h : lo ≤ hi) :
    (if (if v ≤ hi then v else hi) ≥ lo then (if v ≤ hi then v else hi) else lo) =
      max lo (min hi v) := by
  simp only [min_def, max_def]
  split_ifs <;> linarith

@[simp] lemma setSpeed_speed (m : DriveToolManager) (v : ℚ) :
    (m.setSpeed v).speed = max DriveToolConfig.speedMin (min DriveToolConfig.speedMax v) := by
  unfold setSpeed
  dsimp only
  exact clampStore_eq _ _ v (by norm_num [DriveToolConfig.speedMin, DriveToolConfig.speedMax])

@[simp] lemma setFov_fov (m : DriveToolManager) (v : ℚ) :
    (m.setFov v).fov = max DriveToolConfig.fovMin (min DriveToolConfig.fovMax v) := by
  unfold setFov
  rw [updateCamera_fov]
  dsimp only
  exact clampStore_eq _ _ v (by norm_num [DriveToolConfig.fovMin, DriveToolConfig.fovMax])

@[simp] lemma setHeight_height (m : DriveToolManager) (v : ℚ) :
    (m.setHeight v).height = max DriveToolConfig.heightMin (min DriveToolConfig.heightMax v) := by
  unfold setHeight
  rw [updateCamera_height]
  dsimp only
  exact clampStore_eq _ _ v (by norm_num [DriveToolConfig.heightMin, DriveToolConfig.heightMax])

@[simp] lemma setLateralOffset_lateralOffset (m : DriveToolManager) (v : ℚ) :
    (m.setLateralOffset v).lateralOffset =
      max DriveToolConfig.lateralOffsetMin (min DriveToolConfig.lateralOffsetMax v) := by
  unfold setLateralOffset
  rw [updateCamera_lateralOffset]
  dsimp only
  exact clampStore_eq _ _ v
    (by norm_num [DriveToolConfig.lateralOffsetMin, DriveToolConfig.lateralOffsetMax])

lemma clampStore_bounds (lo hi v : ℚ) (h : lo ≤ hi) :
    lo ≤ max lo (min hi v) ∧ max lo (min hi v) ≤ hi :=
  ⟨le_max_left lo _, max_le h (min_le_left hi v)⟩

lemma clampStore_id (lo hi v : ℚ) (h1 : lo ≤ v) (h2 : v ≤ hi) :
    max lo (min hi v) = v := by
  rw [min_eq_right h2, max_eq_right h1]

lemma vector_neg_neg (v : Vector3d) : v.neg.neg = v := by
  rcases v with ⟨x, y, z⟩
  simp [Vector3d.neg]

lemma curve_reverse_pointAt (c : Curve) (f : ℚ) :
    (c.reverse).pointAt (1 - f) = c.pointAt f := by
  simp only [Curve.reverse]
  congr 1
  ring

lemma curve_reverse_reverse (c : Curve) : (c.reverse).reverse = c := by
  rcases c with ⟨len, pAt, tAt⟩
  simp only [Curve.reverse, Curve.mk.injEq, true_and]
  refine ⟨?_, ?_⟩
  · funext f
    congr 1
    ring
  · funext f
    rw [show (1 : ℚ) - (1 - f) = f by ring]
    exact vector_neg_neg (tAt f)

lemma reverseCurve_positionOnCurve (m : DriveToolManager) (c : Curve)
    (hc : m.selectedCurve = some c) :
    (m.reverseCurve).positionOnCurve = some (c.pointAt m.progress) := by
  unfold reverseCurve updateProgress
  rw [hc]
  simp [curve_reverse_pointAt]

lemma updateCamera_run_synch (m : DriveToolManager)
    (hvp : m.viewport = true) (hv : m.view = true) :
    (m.updateCamera).synchCalls = m.synchCalls + 1 := by
  unfold updateCamera
  rw [hvp, hv]
  rcases hp : m.positionOnCurve with _ | pos <;>
    rcases hl : m.cameraLookAt with _ | look <;> simp [hp, hl]

lemma updateCamera_run_camera (m : DriveToolManager) (pos : Point3d) (look : Vector3d)
    (hvp : m.viewport = true) (hv : m.view = true)
    (hp : m.positionOnCurve = some pos) (hl : m.cameraLookAt = some look) :
    (m.updateCamera).camera =
      some { eyePoint := (pos.plus (Vector3d.unitZ m.height)).plus
               (((Vector3d.unitZ 1).crossProduct look).scale (-m.lateralOffset))
             targetPoint := ((pos.plus (Vector3d.unitZ m.height)).plus
               (((Vector3d.unitZ 1).crossProduct look).scale (-m.lateralOffset))).plus look
             upVector := ⟨0, 0, 1⟩
             lensAngleDegrees := m.fov } := by
  unfold updateCamera
  rw [hvp, hv]
  simp [hp, hl]

lemma setSelectedCurve_skip (m : DriveToolManager) (p : Option Curve)
    (h : m.selectedCurve.isSome = true ∨ m.view = false) :
    m.setSelectedCurve p = m := by
  unfold setSelectedCurve
  rcases h with h | h <;> simp [h]

lemma setSelectedCurve_warn (m : DriveToolManager)
    (hc : m.selectedCurve = none) (hv : m.view = true) :
    m.setSelectedCurve none =
      { m with notifications := Notification.warnCantFindPath :: m.notifications
               selectionSetSize := 0 } := by
  unfold setSelectedCurve
  rw [hc, hv]
  simp

lemma setSelectedCurve_found (m : DriveToolManager) (p : Curve)
    (hc : m.selectedCurve = none) (hv : m.view = true) :
    (m.setSelectedCurve (some p)).selectedCurve = some p ∧
    (m.setSelectedCurve (some p)).positionOnCurve = some (p.pointAt m.progress) ∧
    (m.setSelectedCurve (some p)).cameraLookAt = some (p.tangentAt m.progress) ∧
    (m.setSelectedCurve (some p)).selectionSetSize = 0 ∧
    (m.setSelectedCurve (some p)).notifications = m.notifications := by
  unfold setSelectedCurve
  rw [hc, hv]
  simp [updateProgress]

lemma toggleMovement_eq_stop (m : DriveToolManager) (i : Nat) (h : m.moving = true) :
    m.toggleMovement i = m.stop := by
  unfold toggleMovement
  rw [h]
  simp

lemma toggleMovement_eq_launch (m : DriveToolManager) (i : Nat) (h : m.moving = false) :
    m.toggleMovement i = m.launch i := by
  unfold toggleMovement
  rw [h]
  simp

end DriveToolManager

/-- A concrete curve used to exercise the manager: length 100, constant
point map and unit tangent along the x axis. -/
def testCurve : Curve :=
  { length := 100
    pointAt := fun _ => ⟨0, 0, 0⟩
    tangentAt := fun _ => ⟨1, 0, 0⟩ }

/-- A freshly constructed manager (selection set of size 1) after `init` found
a 3d view and resolved the selected element to `testCurve`. -/
def mSelected : DriveToolManager :=
  (DriveToolManager.initialState 1).init true true (some testCurve)

/-- `mSelected` after the UI sets the target distance to 200: the state in
which `getPointsShape` asks the curve for fraction 0 + 200 / 100 = 2. -/
def mOvershoot : DriveToolManager :=
  mSelected.setTargetDistance 200

/-- A manager whose viewport and view are present and whose position on curve
and look-at direction are known, for exercising `updateCamera`. -/
def mCamReady : DriveToolManager :=
  { DriveToolManager.initialState 0 with
      viewport := true
      view := true
      positionOnCurve := some ⟨0, 0, 0⟩
      cameraLookAt := some ⟨1, 0, 0⟩ }

/-- A manager with only the view state set, for exercising
`setSelectedCurve`. -/
def mViewOnly : DriveToolManager :=
  { DriveToolManager.initialState 0 with view := true }

/-- Modelled from the spec: the `CustomAttributeContainerType` enumeration of
the EC schema object model (defined in ECObjects.ts, outside the provided
sources) describes which schema elements a custom attribute may be applied
to. -/
inductive CustomAttributeContainerType where
  | schema
  | entityClass
  | anyClass
  | any
deriving DecidableEq, Repr

/-- Modelled from the spec: the status codes carried by `ECObjectsError`
(Exception.ts, outside the provided sources); `invalidECJson` is the one
`CustomAttributeClass.fromJson` raises. -/
inductive ECObjectsStatus where
  | invalidECJson
  | invalidECName
deriving DecidableEq, Repr

/-- Modelled from the spec: an `ECObjectsError` carries a status code and a
message. -/
structure ECObjectsError where
  status : ECObjectsStatus
  message : String
deriving DecidableEq, Repr

/-- A JavaScript value as seen by `fromJson`, sufficient to decide the
`undefined === x` and `typeof(x)` checks. -/
inductive JsonValue where
  | undef
  | null
  | str (s : String)
  | num (q : ℚ)
  | boolean (b : Bool)
  | obj
  | arr
deriving DecidableEq, Repr

/-- The JavaScript `typeof` operator on a `JsonValue`. -/
def JsonValue.typeof : JsonValue → String
  | .undef => "undefined"
  | .null => "object"
  | .str _ => "string"
  | .num _ => "number"
  | .boolean _ => "boolean"
  | .obj => "object"
  | .arr => "object"

/-- The state of a `CustomAttributeClass` relevant to `fromJson`: the class
name (set by the constructor) and the container type, unassigned until
`fromJson` succeeds. -/
structure CustomAttributeClass where
  name : String
  containerType : Option CustomAttributeContainerType
deriving DecidableEq, Repr

/-- The body of `CustomAttributeClass.fromJson` after the superclass
deserialization has succeeded (`super.fromJson` lives outside the provided
sources; `c` is the class state it left behind).  The source first throws when
`appliesTo` is `undefined`, then throws when `typeof(appliesTo) !== "string"`;
since `typeof` yields `"string"` exactly on string values, the remaining case
assigns `containerType = parseCustomAttributeContainerType(appliesTo)`.
`parse` stands for `parseCustomAttributeContainerType` (ECObjects.ts, outside
the provided sources). -/
def CustomAttributeClass.fromJson (parse : String → CustomAttributeContainerType)
    (c : CustomAttributeClass) (appliesTo : JsonValue) :
    Except ECObjectsError CustomAttributeClass :=
  match appliesTo with
  | JsonValue.undef =>
    Except.error
      { status := ECObjectsStatus.invalidECJson
        message := "The CustomAttributeClass " ++ c.name ++
          " is missing the required appliesTo attribute." }
  | JsonValue.str s =>
    Except.ok { c with containerType := some (parse s) }
  | _ =>
    Except.error
      { status := ECObjectsStatus.invalidECJson
        message := "The CustomAttributeClass " ++ c.name ++
          " has an invalid appliesTo attribute. It should be of type string." }

open DriveToolManager in
/-- C1: the stored movement progress of DriveToolManager always lies in
[0, 1]: the progress setter maps every input below 0 to 0 and every input
above 1 to 1 and stores in-range inputs unchanged, and every other operation
that changes progress (step, reverseCurve) preserves progress in [0, 1]. -/
theorem drive_progress_in_unit_interval :
    (∀ m : DriveToolManager, reachable m → 0 ≤ m.progress ∧ m.progress ≤ 1) ∧
    (∀ (m : DriveToolManager) (v : ℚ), v < 0 → (m.setProgress v).progress = 0) ∧
    (∀ (m : DriveToolManager) (v : ℚ), 1 < v → (m.setProgress v).progress = 1) ∧
    (∀ (m : DriveToolManager) (v : ℚ), 0 ≤ v → v ≤ 1 → (m.setProgress v).progress = v) ∧
    (∀ m : DriveToolManager, 0 ≤ m.progress → m.progress ≤ 1 →
      0 ≤ (m.step).progress ∧ (m.step).progress ≤ 1) ∧
    (∀ m : DriveToolManager, 0 ≤ m.progress → m.progress ≤ 1 →
      0 ≤ (m.reverseCurve).progress ∧ (m.reverseCurve).progress ≤ 1) := by
  refine ⟨?_, ?_, ?_, ?_, ?_, ?_⟩
  · exact fun m h => reachable_progress_bounds h
  · intro m v h
    rw [setProgress_progress, max_eq_left (le_of_lt h)]
    norm_num
  · intro m v h
    rw [setProgress_progress, max_eq_right (by linarith : (0 : ℚ) ≤ v),
      min_eq_left (le_of_lt h)]
  · intro m v h0 h1
    rw [setProgress_progress, max_eq_right h0, min_eq_right h1]
  · exact fun m h0 h1 => step_progress_bounds m h0 h1
  · intro m h0 h1
    rw [reverseCurve_progress]
    constructor <;> linarith

open DriveToolManager in
/-- C1 witness: the progress invariant and the setter clamping, applied at
concrete reachable states and inputs. -/
theorem drive_progress_in_unit_interval_witness :
    (0 ≤ ((initialState 0).setProgress (3 / 2)).progress ∧
      ((initialState 0).setProgress (3 / 2)).progress ≤ 1) ∧
    ((initialState 0).setProgress (-1)).progress = 0 ∧
    ((initialState 0).setProgress (3 / 2)).progress = 1 ∧
    ((initialState 0).setProgress (1 / 2)).progress = 1 / 2 :=
  ⟨drive_progress_in_unit_interval.1 _
      (reachable.event (DriveEvent.setProgress (3 / 2)) _ (reachable.init 0)),
    drive_progress_in_unit_interval.2.1 (initialState 0) (-1) (by norm_num),
    drive_progress_in_unit_interval.2.2.1 (initialState 0) (3 / 2) (by norm_num),
    drive_progress_in_unit_interval.2.2.2.1 (initialState 0) (1 / 2) (by norm_num)
      (by norm_num)⟩

open DriveToolManager in
/-- C2: while a curve is selected, each step (one per timer tick) moves the
stored progress to the previous progress plus
(speed * intervalTime) / curveLength, clamped into [0, 1]; when no curve is
selected, step changes nothing. -/
theorem drive_step_increment :
    ∀ (m : DriveToolManager) (c : Curve),
      (m.selectedCurve = some c →
        (m.step).progress =
          min 1 (max 0 (m.progress + m.speed * m.intervalTime / c.length))) ∧
      (m.selectedCurve = none → m.step = m) := by
  intro m c
  constructor
  · intro hc
    rw [step_eq_of_curve m c hc, setProgress_progress]
  · intro hc
    exact step_eq_of_none m hc

open DriveToolManager in
/-- C2 witness: the step increment evaluated on a freshly initialized manager
with the 100-unit test curve selected, and the no-curve case on a fresh
manager. -/
theorem drive_step_increment_witness :
    mSelected.selectedCurve = some testCurve ∧
    (mSelected.step).progress =
      min 1 (max 0 (mSelected.progress +
        mSelected.speed * mSelected.intervalTime / testCurve.length)) ∧
    (initialState 0).step = initialState 0 :=
  ⟨rfl, (drive_step_increment mSelected testCurve).1 rfl,
    (drive_step_increment (initialState 0) testCurve).2 rfl⟩

open DriveToolManager in
/-- C7: in every reachable state the moving flag is set exactly when an
interval timer id is stored; launch without a selected curve or while moving
changes nothing; launch with a curve while stopped sets moving and registers
the timer; stop clears the timer and the flag when a timer is registered and
otherwise changes nothing; toggleMovement stops a moving state and launches a
stopped state with a selected curve. -/
theorem drive_moving_iff_timer :
    (∀ m : DriveToolManager, reachable m →
      (m.moving = true ↔ m.intervalId.isSome = true)) ∧
    (∀ (m : DriveToolManager) (i : Nat), m.selectedCurve = none → m.launch i = m) ∧
    (∀ (m : DriveToolManager) (i : Nat), m.moving = true → m.launch i = m) ∧
    (∀ (m : DriveToolManager) (i : Nat), m.selectedCurve.isSome = true →
      m.moving = false → (m.launch i).moving = true ∧ (m.launch i).intervalId = some i) ∧
    (∀ m : DriveToolManager, m.intervalId.isSome = true →
      (m.stop).moving = false ∧ (m.stop).intervalId = none) ∧
    (∀ m : DriveToolManager, m.intervalId = none → m.stop = m) ∧
    (∀ (m : DriveToolManager) (i : Nat), m.moving = true → m.toggleMovement i = m.stop) ∧
    (∀ (m : DriveToolManager) (i : Nat), m.moving = false → m.toggleMovement i = m.launch i) ∧
    (∀ (m : DriveToolManager) (i : Nat), reachable m → m.moving = true →
      (m.toggleMovement i).moving = false) ∧
    (∀ (m : DriveToolManager) (i : Nat), m.moving = false →
      m.selectedCurve.isSome = true → (m.toggleMovement i).moving = true) := by
  refine ⟨?_, ?_, ?_, ?_, ?_, ?_, ?_, ?_, ?_, ?_⟩
  · intro m hr
    rw [reachable_moving_eq hr]
  · intro m i hc
    exact launch_eq_of_skip m i (Or.inl (by simp [hc]))
  · intro m i hm
    exact launch_eq_of_skip m i (Or.inr hm)
  · intro m i hc hm
    exact launch_run_moving m i hc hm
  · intro m hi
    rw [stop_eq_of_some m hi]
    exact ⟨rfl, rfl⟩
  · intro m hi
    exact stop_eq_of_none m hi
  · intro m i hm
    exact toggleMovement_eq_stop m i hm
  · intro m i hm
    exact toggleMovement_eq_launch m i hm
  · intro m i hr hm
    rw [toggleMovement_eq_stop m i hm]
    have hi : m.intervalId.isSome = true := by
      rw [← reachable_moving_eq hr]
      exact hm
    rw [stop_eq_of_some m hi]
  · intro m i hm hc
    rw [toggleMovement_eq_launch m i hm]
    exact (launch_run_moving m i hc hm).1

open DriveToolManager in
/-- C7 witness: the moving/timer agreement and the launch behavior at a
reachable state with the test curve selected, and stop applied to the
launched state. -/
theorem drive_moving_iff_timer_witness :
    ((mSelected.launch 5).moving = true ↔ (mSelected.launch 5).intervalId.isSome = true) ∧
    ((mSelected.launch 5).moving = true ∧ (mSelected.launch 5).intervalId = some 5) ∧
    ((mSelected.launch 5).stop.moving = false ∧ (mSelected.launch 5).stop.intervalId = none) :=
  ⟨drive_moving_iff_timer.1 _
      (reachable.event (DriveEvent.launch 5) _
        (reachable.event (DriveEvent.initTool true true (some testCurve)) _
          (reachable.init 1))),
    drive_moving_iff_timer.2.2.2.1 mSelected 5 rfl rfl,
    drive_moving_iff_timer.2.2.2.2.1 (mSelected.launch 5)
      (by rw [(drive_moving_iff_timer.2.2.2.1 mSelected 5 rfl rfl).2]; rfl)⟩

open DriveToolManager in
/-- C8: the speed, fov, height and lateralOffset setters store the input
clamped to the DriveToolConfig bounds — [-50, 50], [5, 175], [0.1, 10] and
[-5, 5] respectively — store in-range inputs unchanged, and therefore leave
each parameter within its configured range after any set. -/
theorem drive_setter_clamps :
    ∀ (m : DriveToolManager) (v : ℚ),
      ((m.setSpeed v).speed = max DriveToolConfig.speedMin (min DriveToolConfig.speedMax v) ∧
        DriveToolConfig.speedMin ≤ (m.setSpeed v).speed ∧
        (m.setSpeed v).speed ≤ DriveToolConfig.speedMax ∧
        (DriveToolConfig.speedMin ≤ v → v ≤ DriveToolConfig.speedMax →
          (m.setSpeed v).speed = v)) ∧
      ((m.setFov v).fov = max DriveToolConfig.fovMin (min DriveToolConfig.fovMax v) ∧
        DriveToolConfig.fovMin ≤ (m.setFov v).fov ∧
        (m.setFov v).fov ≤ DriveToolConfig.fovMax ∧
        (DriveToolConfig.fovMin ≤ v → v ≤ DriveToolConfig.fovMax → (m.setFov v).fov = v)) ∧
      ((m.setHeight v).height =
          max DriveToolConfig.heightMin (min DriveToolConfig.heightMax v) ∧
        DriveToolConfig.heightMin ≤ (m.setHeight v).height ∧
        (m.setHeight v).height ≤ DriveToolConfig.heightMax ∧
        (DriveToolConfig.heightMin ≤ v → v ≤ DriveToolConfig.heightMax →
          (m.setHeight v).height = v)) ∧
      ((m.setLateralOffset v).lateralOffset =
          max DriveToolConfig.lateralOffsetMin (min DriveToolConfig.lateralOffsetMax v) ∧
        DriveToolConfig.lateralOffsetMin ≤ (m.setLateralOffset v).lateralOffset ∧
        (m.setLateralOffset v).lateralOffset ≤ DriveToolConfig.lateralOffsetMax ∧
        (DriveToolConfig.lateralOffsetMin ≤ v → v ≤ DriveToolConfig.lateralOffsetMax →
          (m.setLateralOffset v).lateralOffset = v)) ∧
      (DriveToolConfig.speedMin = -50 ∧ DriveToolConfig.speedMax = 50 ∧
        DriveToolConfig.fovMin = 5 ∧ DriveToolConfig.fovMax = 175 ∧
        DriveToolConfig.heightMin = 0.1 ∧ DriveToolConfig.heightMax = 10 ∧
        DriveToolConfig.lateralOffsetMin = -5 ∧ DriveToolConfig.lateralOffsetMax = 5) := by
  intro m v
  have hsp : DriveToolConfig.speedMin ≤ DriveToolConfig.speedMax := by
    norm_num [DriveToolConfig.speedMin, DriveToolConfig.speedMax]
  have hfv : DriveToolConfig.fovMin ≤ DriveToolConfig.fovMax := by
    norm_num [DriveToolConfig.fovMin, DriveToolConfig.fovMax]
  have hht : DriveToolConfig.heightMin ≤ DriveToolConfig.heightMax := by
    norm_num [DriveToolConfig.heightMin, DriveToolConfig.heightMax]
  have hlo : DriveToolConfig.lateralOffsetMin ≤ DriveToolConfig.lateralOffsetMax := by
    norm_num [DriveToolConfig.lateralOffsetMin, DriveToolConfig.lateralOffsetMax]
  refine ⟨⟨setSpeed_speed m v, ?_, ?_, ?_⟩, ⟨setFov_fov m v, ?_, ?_, ?_⟩,
    ⟨setHeight_height m v, ?_, ?_, ?_⟩, ⟨setLateralOffset_lateralOffset m v, ?_, ?_, ?_⟩,
    rfl, rfl, rfl, rfl, rfl, rfl, rfl, rfl⟩
  · rw [setSpeed_speed]; exact (clampStore_bounds _ _ v hsp).1
  · rw [setSpeed_speed]; exact (clampStore_bounds _ _ v hsp).2
  · intro h1 h2; rw [setSpeed_speed]; exact clampStore_id _ _ v h1 h2
  · rw [setFov_fov]; exact (clampStore_bounds _ _ v hfv).1
  · rw [setFov_fov]; exact (clampStore_bounds _ _ v hfv).2
  · intro h1 h2; rw [setFov_fov]; exact clampStore_id _ _ v h1 h2
  · rw [setHeight_height]; exact (clampStore_bounds _ _ v hht).1
  · rw [setHeight_height]; exact (clampStore_bounds _ _ v hht).2
  · intro h1 h2; rw [setHeight_height]; exact clampStore_id _ _ v h1 h2
  · rw [setLateralOffset_lateralOffset]; exact (clampStore_bounds _ _ v hlo).1
  · rw [setLateralOffset_lateralOffset]; exact (clampStore_bounds _ _ v hlo).2
  · intro h1 h2; rw [setLateralOffset_lateralOffset]; exact clampStore_id _ _ v h1 h2

open DriveToolManager in
/-- C8 witness: the four setters evaluated at concrete out-of-range and
in-range inputs on a fresh manager. -/
theorem drive_setter_clamps_witness :
    ((initialState 0).setSpeed 100).speed = 50 ∧
    ((initialState 0).setFov 80).fov = 80 ∧
    ((initialState 0).setHeight 0).height = 0.1 ∧
    ((initialState 0).setLateralOffset (-7)).lateralOffset = -5 := by
  have h := drive_setter_clamps (initialState 0)
  refine ⟨?_, ?_, ?_, ?_⟩
  · rw [(h 100).1.1]
    norm_num [DriveToolConfig.speedMin, DriveToolConfig.speedMax]
  · exact (h 80).2.1.2.2.2 (by norm_num [DriveToolConfig.fovMin])
      (by norm_num [DriveToolConfig.fovMax])
  · rw [(h 0).2.2.1.1]
    norm_num [DriveToolConfig.heightMin, DriveToolConfig.heightMax]
  · rw [(h (-7)).2.2.2.1.1]
    norm_num [DriveToolConfig.lateralOffsetMin, DriveToolConfig.lateralOffsetMax]

open DriveToolManager in
/-- C9: immediately after construction fov is 75, height is 1.5,
lateralOffset is 0, speed is 100 / 3.6, intervalTime is 0.5, progress is 0
and moving is false; the target distance, however, is `undefined` (`none`),
not 200: the initializer reads `DriveToolConfig.targetDistance`, which does
not exist (only `targetDistanceDefault = 200` does). -/
theorem drive_constructor_defaults (n : Nat) :
    (initialState n).fov = 75 ∧
    (initialState n).height = 1.5 ∧
    (initialState n).lateralOffset = 0 ∧
    (initialState n).speed = 100 / 3.6 ∧
    (initialState n).intervalTime = 0.5 ∧
    (initialState n).progress = 0 ∧
    (initialState n).moving = false ∧
    (initialState n).targetDistance = none :=
  ⟨rfl, rfl, rfl, rfl, rfl, rfl, rfl, rfl⟩

open DriveToolManager in
/-- C3 (amended): when the viewport and the view are set, updateCamera
derives the camera eye point as positionOnCurve + (0,0,height) +
(unitZ cross cameraLookAt) scaled by (-lateralOffset), aims the camera from
that eye point toward eyePoint + cameraLookAt with up vector (0,0,1) and lens
angle fov degrees, and performs the viewport synchronization call on every
such updateCamera call, even when no position on the curve is known; when
the viewport or the view is missing, updateCamera returns without
synchronizing. -/
theorem drive_updateCamera_spec :
    ∀ m : DriveToolManager, m.viewport = true → m.view = true →
      (∀ (pos : Point3d) (look : Vector3d),
        m.positionOnCurve = some pos → m.cameraLookAt = some look →
        (m.updateCamera).camera =
          some { eyePoint := (pos.plus (Vector3d.unitZ m.height)).plus
                   (((Vector3d.unitZ 1).crossProduct look).scale (-m.lateralOffset))
                 targetPoint := ((pos.plus (Vector3d.unitZ m.height)).plus
                   (((Vector3d.unitZ 1).crossProduct look).scale (-m.lateralOffset))).plus look
                 upVector := ⟨0, 0, 1⟩
                 lensAngleDegrees := m.fov }) ∧
      (m.updateCamera).synchCalls = m.synchCalls + 1 :=
  fun m hvp hv =>
    ⟨fun pos look hp hl => updateCamera_run_camera m pos look hvp hv hp hl,
      updateCamera_run_synch m hvp hv⟩

open DriveToolManager in
/-- C3 counterexample: on a freshly constructed manager, which has no
viewport and no view, updateCamera returns unchanged and makes no viewport
synchronization call, refuting the claim that the synchronization call is
made on every updateCamera call. -/
theorem drive_updateCamera_no_synch :
    (initialState 0).updateCamera = initialState 0 ∧
    ¬ ((initialState 0).updateCamera.synchCalls = (initialState 0).synchCalls + 1) := by
  refine ⟨rfl, ?_⟩
  intro h
  have h0 : (initialState 0).updateCamera.synchCalls = 0 := rfl
  have h1 : (initialState 0).synchCalls = 0 := rfl
  rw [h0, h1] at h
  exact Nat.zero_ne_add_one 0 h

open DriveToolManager in
/-- C3 witness: updateCamera evaluated on a manager with viewport and view
present, position (0,0,0), look-at (1,0,0), and the default height 1.5,
lateral offset 0 and fov 75. -/
theorem drive_updateCamera_spec_witness :
    (mCamReady.updateCamera).synchCalls = mCamReady.synchCalls + 1 ∧
    (mCamReady.updateCamera).camera =
      some { eyePoint := ⟨0, 0, 3 / 2⟩
             targetPoint := ⟨1, 0, 3 / 2⟩
             upVector := ⟨0, 0, 1⟩
             lensAngleDegrees := 75 } := by
  have h := drive_updateCamera_spec mCamReady rfl rfl
  refine ⟨h.2, ?_⟩
  rw [h.1 ⟨0, 0, 0⟩ ⟨1, 0, 0⟩ rfl rfl]
  norm_num [Point3d.plus, Vector3d.unitZ, Vector3d.crossProduct, Vector3d.scale,
    mCamReady, initialState, DriveToolConfig.heightDefault,
    DriveToolConfig.lateralOffsetDefault, DriveToolConfig.fovDefault]

lemma mOvershoot_reachable : reachable mOvershoot :=
  reachable.event (DriveEvent.setTargetDistance 200) _
    (reachable.event (DriveEvent.initTool true true (some testCurve)) _
      (reachable.init 1))

lemma mOvershoot_fraction : mOvershoot.getPointsShapeFraction = some 2 := by
  have h1 : mOvershoot.selectedCurve = some testCurve := rfl
  have h2 : mOvershoot.positionOnCurve = some (testCurve.pointAt 0) := rfl
  have h3 : mOvershoot.targetDistance = some 200 := rfl
  have h4 : mOvershoot.progress = 0 := rfl
  unfold DriveToolManager.getPointsShapeFraction
  rw [h1, h2, h3, h4]
  norm_num [testCurve]

open DriveToolManager in
/-- C5 (amended): in every reachable state the fraction updateProgress passes
to the selected curve's fractionToPoint and fractionToPointAndUnitTangent
(the stored progress) lies in [0, 1]; but the fraction
progress + targetDistance / curveLength that getPointsShape passes to
fractionToPoint to place the target can exceed 1 in a reachable state. -/
theorem drive_fraction_range :
    (∀ m : DriveToolManager, reachable m → 0 ≤ m.progress ∧ m.progress ≤ 1) ∧
    (∃ m : DriveToolManager, reachable m ∧
      ∃ q : ℚ, m.getPointsShapeFraction = some q ∧ 1 < q) := by
  constructor
  · exact fun m h => reachable_progress_bounds h
  · exact ⟨mOvershoot, mOvershoot_reachable, 2, mOvershoot_fraction, by norm_num⟩

open DriveToolManager in
/-- C5 counterexample: in the reachable state where the test curve of length
100 is selected at progress 0 and the target distance has been set to 200,
getPointsShape passes fraction 0 + 200 / 100 = 2 > 1 to the curve's
fractionToPoint. -/
theorem drive_fraction_exceeds_one :
    reachable mOvershoot ∧
    mOvershoot.getPointsShapeFraction = some 2 ∧ ¬ ((2 : ℚ) ≤ 1) :=
  ⟨mOvershoot_reachable, mOvershoot_fraction, by norm_num⟩

open DriveToolManager in
/-- C5 witness: the in-range half of the amended claim evaluated at the
reachable overshoot state itself. -/
theorem drive_fraction_range_witness :
    0 ≤ mOvershoot.progress ∧ mOvershoot.progress ≤ 1 :=
  drive_fraction_range.1 mOvershoot mOvershoot_reachable

open DriveToolManager in
/-- C6: setSelectedCurve with a curve already selected or no view present
returns with no state change and no message; otherwise, when the queried
path parses, it stores the curve and updates the progress-derived state, and
when it does not, it emits the warning and leaves the curve unset; in both
of the latter cases the iModel selection set is emptied. -/
theorem drive_setSelectedCurve_spec :
    ∀ (m : DriveToolManager) (path : Option Curve),
      (m.selectedCurve.isSome = true ∨ m.view = false → m.setSelectedCurve path = m) ∧
      (m.selectedCurve = none → m.view = true →
        m.setSelectedCurve none =
          { m with notifications := Notification.warnCantFindPath :: m.notifications
                   selectionSetSize := 0 }) ∧
      (∀ p : Curve, m.selectedCurve = none → m.view = true → path = some p →
        (m.setSelectedCurve path).selectedCurve = some p ∧
        (m.setSelectedCurve path).positionOnCurve = some (p.pointAt m.progress) ∧
        (m.setSelectedCurve path).cameraLookAt = some (p.tangentAt m.progress) ∧
        (m.setSelectedCurve path).selectionSetSize = 0 ∧
        (m.setSelectedCurve path).notifications = m.notifications) := by
  intro m path
  refine ⟨fun h => setSelectedCurve_skip m path h,
    fun hc hv => setSelectedCurve_warn m hc hv,
    fun p hc hv hp => ?_⟩
  subst hp
  exact setSelectedCurve_found m p hc hv

open DriveToolManager in
/-- C6 witness: the three branches of setSelectedCurve evaluated on concrete
states — a view-only manager receiving a parsed path, the same manager
receiving no path, and a manager with a curve already selected. -/
theorem drive_setSelectedCurve_spec_witness :
    (mViewOnly.setSelectedCurve (some testCurve)).selectedCurve = some testCurve ∧
    (mViewOnly.setSelectedCurve (some testCurve)).selectionSetSize = 0 ∧
    (mViewOnly.setSelectedCurve none).notifications = [Notification.warnCantFindPath] ∧
    mSelected.setSelectedCurve none = mSelected := by
  have h1 := (drive_setSelectedCurve_spec mViewOnly (some testCurve)).2.2 testCurve rfl rfl rfl
  have h2 := (drive_setSelectedCurve_spec mViewOnly none).2.1 rfl rfl
  have h3 := (drive_setSelectedCurve_spec mSelected none).1 (Or.inl rfl)
  refine ⟨h1.1, h1.2.2.2.1, ?_, h3⟩
  rw [h2]
  rfl

/-- C4: after the superclass deserialization succeeds,
CustomAttributeClass.fromJson throws an ECObjectsError with status
InvalidECJson exactly when the appliesTo field is undefined or not of type
string; when appliesTo is a string it assigns
containerType = parseCustomAttributeContainerType(appliesTo) and raises no
error of its own. -/
theorem customAttributeClass_fromJson_spec :
    ∀ (parse : String → CustomAttributeContainerType) (c : CustomAttributeClass)
      (j : JsonValue),
      ((∃ e : ECObjectsError, c.fromJson parse j = Except.error e ∧
          e.status = ECObjectsStatus.invalidECJson) ↔
        (j = JsonValue.undef ∨ j.typeof ≠ "string")) ∧
      (∀ s : String, j = JsonValue.str s →
        c.fromJson parse j = Except.ok { c with containerType := some (parse s) }) := by
  intro parse c j
  constructor
  · cases j <;> simp [CustomAttributeClass.fromJson, JsonValue.typeof]
  · intro s hs
    subst hs
    rfl

/-- A stand-in for parseCustomAttributeContainerType in concrete runs of
fromJson. -/
def parseAny : String → CustomAttributeContainerType :=
  fun _ => CustomAttributeContainerType.any

/-- A CustomAttributeClass as left by the constructor, for concrete runs of
fromJson. -/
def caTest : CustomAttributeClass :=
  { name := "TestClass", containerType := none }

/-- C4 witness: fromJson evaluated on a string appliesTo and on an undefined
appliesTo. -/
theorem customAttributeClass_fromJson_spec_witness :
    caTest.fromJson parseAny (JsonValue.str "Schema") =
      Except.ok { caTest with containerType := some (parseAny "Schema") } ∧
    (∃ e : ECObjectsError, caTest.fromJson parseAny JsonValue.undef = Except.error e ∧
      e.status = ECObjectsStatus.invalidECJson) :=
  ⟨(customAttributeClass_fromJson_spec parseAny caTest (JsonValue.str "Schema")).2
      "Schema" rfl,
    (customAttributeClass_fromJson_spec parseAny caTest JsonValue.undef).1.mpr
      (Or.inl rfl)⟩

open DriveToolManager in
/-- C10: reverseCurve is an involution — applying it twice restores both the
progress (1 - (1 - p) = p) and the selected curve (reverseInPlace twice is
the identity) — and a single reverseCurve preserves the geometric position,
since fraction 1 - p on the reversed curve maps to the same point as fraction
p on the original curve. -/
theorem drive_reverseCurve_involution :
    (∀ m : DriveToolManager,
      (m.reverseCurve.reverseCurve).progress = m.progress ∧
      (m.reverseCurve.reverseCurve).selectedCurve = m.selectedCurve) ∧
    (∀ c : Curve, (c.reverse).reverse = c) ∧
    (∀ (c : Curve) (f : ℚ), (c.reverse).pointAt (1 - f) = c.pointAt f) ∧
    (∀ (m : DriveToolManager) (c : Curve), m.selectedCurve = some c →
      (m.reverseCurve).positionOnCurve = some (c.pointAt m.progress)) := by
  refine ⟨?_, curve_reverse_reverse, curve_reverse_pointAt, reverseCurve_positionOnCurve⟩
  intro m
  constructor
  · rw [reverseCurve_progress, reverseCurve_progress]
    ring
  · rw [(reverseCurve_preserves m.reverseCurve).2.2, (reverseCurve_preserves m).2.2]
    cases hc : m.selectedCurve with
    | none => rfl
    | some c => simp [curve_reverse_reverse]

open DriveToolManager in
/-- C10 witness: the double reversal and the position preservation evaluated
on the manager with the test curve selected. -/
theorem drive_reverseCurve_involution_witness :
    (mSelected.reverseCurve).positionOnCurve =
      some (testCurve.pointAt mSelected.progress) ∧
    (mSelected.reverseCurve.reverseCurve).progress = mSelected.progress ∧
    (mSelected.reverseCurve.reverseCurve).selectedCurve = mSelected.selectedCurve :=
  ⟨drive_reverseCurve_involution.2.2.2 mSelected testCurve rfl,
    (drive_reverseCurve_involution.1 mSelected).1,
    (drive_reverseCurve_involution.1 mSelected).2⟩
